import Mathlib

/-!
Shallow embedding of `src/components/bottomSheetModal/BottomSheetModal.tsx`
(krakz999/react-native-bottom-sheet).

The component is a modal lifecycle controller.  Its mutable controller
state consists of the React `mount` state plus mutable refs
(`isMinimized`, `isForcedDismissed`, `currentIndexRef`, `nextIndexRef`).
Each public/private handler is translated as a function
`ModalState → ModalState × List Event`, where the event list records, in
order, the imperative calls the handler makes to its collaborators: the
sheet engine (`close`, `snapTo`, `expand` on `bottomSheetRef.current`),
the host mechanism (`mountSheet`, `unmountSheet`, `willUnmountSheet`),
the portal (`unmountPortal`), and the caller's callbacks (`onChange`,
`onDismiss`).  `bottomSheetRef.current` is non-null exactly when the
sheet component is rendered, i.e. when `mount` is true, so each optional
chain `bottomSheetRef.current?.cmd()` is embedded as emitting the
engine event only when `mount` is true.

`handlePresent` defers its body with `requestAnimationFrame`; this is
embedded by a `pendingPresent` counter in the state: the `present`
action increments it and a separate `runFrame` action runs one pending
deferred body.
-/

namespace BottomSheetModal

/-- Configuration captured from props at construction:
`dismissOnPanDown`, the provided initial `index` and `snapPoints`
(snap-point values are modelled as integers; only their count and the
synthetic leading `0` matter here). -/
structure Config where
  dismissOnPanDown : Bool
  providedIndex : Int
  providedSnapPoints : List Int
  deriving Repr, DecidableEq

/-- The controller state: the `mount` React state, the four mutable refs,
and the number of pending `requestAnimationFrame` callbacks scheduled by
`handlePresent` that have not run yet. -/
structure ModalState where
  mount : Bool
  isMinimized : Bool
  isForcedDismissed : Bool
  currentIndex : Int
  nextIndex : Int
  pendingPresent : Nat
  deriving Repr, DecidableEq

/-- The state of a freshly constructed controller: unmounted, flags
false, both indices `-1`, nothing scheduled. -/
def initialModalState : ModalState :=
  { mount := false
  , isMinimized := false
  , isForcedDismissed := false
  , currentIndex := -1
  , nextIndex := -1
  , pendingPresent := 0 }

/-- Observable effects a handler performs, in program order. `snapTo`
carries its optional `animated` argument (`none` when the TypeScript
call omits it). -/
inductive Event where
  | engineClose : Event
  | engineSnapTo (i : Int) (animated : Option Bool) : Event
  | engineExpand : Event
  | mountSheet : Event
  | unmountSheet : Event
  | unmountPortal : Event
  | willUnmountSheet : Event
  | onChange (i : Int) : Event
  | onDismiss : Event
  deriving Repr, DecidableEq

/-- `const index = useMemo(() => dismissOnPanDown ? _providedIndex + 1
: _providedIndex, ...)` — the adjustment rule applied to an arbitrary
caller-facing index. -/
def adjustIndex (c : Config) (i : Int) : Int :=
  if c.dismissOnPanDown then i + 1 else i

/-- The `adjustedIndex` computation of `handleOnChange` (line 106):
`dismissOnPanDown ? _index - 1 : _index`. -/
def unadjustIndex (c : Config) (i : Int) : Int :=
  if c.dismissOnPanDown then i - 1 else i

/-- `const snapPoints = useMemo(() => dismissOnPanDown ?
[0, ..._providedSnapPoints] : _providedSnapPoints, ...)`, applied to an
arbitrary caller snap-point sequence. -/
def adjustSnapPoints (c : Config) (sp : List Int) : List Int :=
  if c.dismissOnPanDown then 0 :: sp else sp

/-- The memoised `index` variable: the adjusted initial index. -/
def index (c : Config) : Int :=
  adjustIndex c c.providedIndex

/-- The memoised `snapPoints` variable: the adjusted snap-point
sequence. -/
def snapPoints (c : Config) : List Int :=
  adjustSnapPoints c c.providedSnapPoints

/-- `doDismiss`: reset all four refs, unmount the sheet and the portal,
`setMount(false)`, then fire the provided dismiss callback. -/
def doDismiss (s : ModalState) : ModalState × List Event :=
  ({ s with
      isMinimized := false
    , isForcedDismissed := false
    , currentIndex := -1
    , nextIndex := -1
    , mount := false },
   [Event.unmountSheet, Event.unmountPortal, Event.onDismiss])

/-- `handleOnChange(_index)`: ignore the engine report entirely when
minimized and not forced-dismissed; otherwise record the raw index in
both refs, then either forward the unadjusted index to `onChange` (when
it is `≥ 0`) or run `doDismiss`. -/
def handleOnChange (c : Config) (s : ModalState) (i : Int) :
    ModalState × List Event :=
  if s.isMinimized && !s.isForcedDismissed then
    (s, [])
  else
    let adjustedIndex := unadjustIndex c i
    let s1 := { s with currentIndex := i, nextIndex := i }
    if adjustedIndex ≥ 0 then
      (s1, [Event.onChange adjustedIndex])
    else
      doDismiss s1

/-- The body of the `requestAnimationFrame` callback scheduled by
`handlePresent`: `nextIndexRef.current = index; setMount(true);
mountSheet(key, ref)`. -/
def presentFrame (c : Config) (s : ModalState) : ModalState × List Event :=
  ({ s with nextIndex := index c, mount := true }, [Event.mountSheet])

/-- `handleDismiss(force = false)`: when forced and minimized, tear down
immediately; when forced and not minimized, set `isForcedDismissed` and
clear `isMinimized`; when not forced, notify the host via
`willUnmountSheet`.  In the two non-immediate cases set
`nextIndexRef` to `-1` and call `bottomSheetRef.current?.close()`. -/
def handleDismiss (s : ModalState) (force : Bool) :
    ModalState × List Event :=
  if force then
    if s.isMinimized then
      doDismiss s
    else
      let s1 := { s with isForcedDismissed := true, isMinimized := false }
      let s2 := { s1 with nextIndex := -1 }
      (s2, if s.mount then [Event.engineClose] else [])
  else
    let s2 := { s with nextIndex := -1 }
    (s2, Event.willUnmountSheet ::
          (if s.mount then [Event.engineClose] else []))

/-- `handleClose`: no-op while minimized; otherwise `nextIndexRef = -1`
and `bottomSheetRef.current?.close()`. -/
def handleClose (s : ModalState) : ModalState × List Event :=
  if s.isMinimized then
    (s, [])
  else
    ({ s with nextIndex := -1 },
     if s.mount then [Event.engineClose] else [])

/-- `handleCollapse`: no-op while minimized; otherwise
`nextIndexRef = dismissOnPanDown ? 1 : 0` and
`bottomSheetRef.current?.snapTo(nextIndexRef.current)`. -/
def handleCollapse (c : Config) (s : ModalState) : ModalState × List Event :=
  if s.isMinimized then
    (s, [])
  else
    let next : Int := if c.dismissOnPanDown then 1 else 0
    ({ s with nextIndex := next },
     if s.mount then [Event.engineSnapTo next none] else [])

/-- `handleExpand`: no-op while minimized; otherwise
`nextIndexRef = snapPoints.length - 1` and
`bottomSheetRef.current?.expand()`. -/
def handleExpand (c : Config) (s : ModalState) : ModalState × List Event :=
  if s.isMinimized then
    (s, [])
  else
    ({ s with nextIndex := ((snapPoints c).length : Int) - 1 },
     if s.mount then [Event.engineExpand] else [])

/-- `handleSnapTo(_index)`: no-op while minimized; otherwise
`nextIndexRef = _index + (dismissOnPanDown ? 1 : 0)` and
`bottomSheetRef.current?.snapTo(nextIndexRef.current)`. -/
def handleSnapTo (c : Config) (s : ModalState) (i : Int) :
    ModalState × List Event :=
  if s.isMinimized then
    (s, [])
  else
    let next : Int := i + (if c.dismissOnPanDown then 1 else 0)
    ({ s with nextIndex := next },
     if s.mount then [Event.engineSnapTo next none] else [])

/-- `handleMinimize`: if not already minimized, set
`isMinimized = true` and `bottomSheetRef.current?.close()`. -/
def handleMinimize (s : ModalState) : ModalState × List Event :=
  if !s.isMinimized then
    ({ s with isMinimized := true },
     if s.mount then [Event.engineClose] else [])
  else
    (s, [])

/-- `handleRestore`: if minimized, clear the flag and
`bottomSheetRef.current?.snapTo(nextIndexRef.current, true)`. -/
def handleRestore (s : ModalState) : ModalState × List Event :=
  if s.isMinimized then
    ({ s with isMinimized := false },
     if s.mount then [Event.engineSnapTo s.nextIndex (some true)] else [])
  else
    (s, [])

/-- `handleOnUnmount` (Portal-driven): if an index is active, perform a
forced dismissal. -/
def handleOnUnmount (s : ModalState) : ModalState × List Event :=
  if s.currentIndex ≠ -1 then
    handleDismiss s true
  else
    (s, [])

/-- Actions that can be delivered to the controller: the public and
private commands, the deferred `present` body running on an animation
frame, and an asynchronous engine change report. -/
inductive Action where
  | present : Action
  | runFrame : Action
  | dismiss (force : Bool) : Action
  | close : Action
  | collapse : Action
  | expand : Action
  | snapTo (i : Int) : Action
  | minimize : Action
  | restore : Action
  | engineChange (i : Int) : Action
  deriving Repr, DecidableEq

/-- One step of the controller.  `present` only schedules its deferred
mutation (`requestAnimationFrame`); `runFrame` runs one scheduled
body. -/
def step (c : Config) (s : ModalState) : Action → ModalState × List Event
  | Action.present => ({ s with pendingPresent := s.pendingPresent + 1 }, [])
  | Action.runFrame =>
      if s.pendingPresent > 0 then
        let (s1, e1) := presentFrame c s
        ({ s1 with pendingPresent := s.pendingPresent - 1 }, e1)
      else
        (s, [])
  | Action.dismiss force => handleDismiss s force
  | Action.close => handleClose s
  | Action.collapse => handleCollapse c s
  | Action.expand => handleExpand c s
  | Action.snapTo i => handleSnapTo c s i
  | Action.minimize => handleMinimize s
  | Action.restore => handleRestore s
  | Action.engineChange i => handleOnChange c s i

/-- Run a sequence of actions, concatenating the emitted events. -/
def run (c : Config) (s : ModalState) : List Action → ModalState × List Event
  | [] => (s, [])
  | a :: rest =>
      let (s1, e1) := step c s a
      let (s2, e2) := run c s1 rest
      (s2, e1 ++ e2)

/-- Concrete configuration used by witnesses: `dismissOnPanDown = true`,
initial index 0, snap points `[300, 500]` (the spec's worked example). -/
def cfgPan : Config :=
  { dismissOnPanDown := true, providedIndex := 0, providedSnapPoints := [300, 500] }

/-- A presented, non-minimized state: mounted at engine index 1. -/
def presentedState : ModalState :=
  { mount := true
  , isMinimized := false
  , isForcedDismissed := false
  , currentIndex := 1
  , nextIndex := 1
  , pendingPresent := 0 }

/-- The presented state after a minimize: same indices, minimized flag set. -/
def minimizedState : ModalState :=
  { presentedState with isMinimized := true }

/-- Claim C5: for every caller-facing index `i ≥ 0` and snap-point
sequence, `adjustIndex` adds 1 and `adjustSnapPoints` prepends `0` when
`dismissOnPanDown` is enabled and both pass through unchanged otherwise;
`unadjustIndex (adjustIndex i) = i`; and the adjusted sequence's length
is the input length plus 1 exactly when `dismissOnPanDown`. -/
theorem adjust_roundtrip_and_length (c : Config) (i : Int) (sp : List Int)
    (h : 0 ≤ i) :
    (c.dismissOnPanDown = true →
      adjustIndex c i = i + 1 ∧ adjustSnapPoints c sp = 0 :: sp) ∧
    (c.dismissOnPanDown = false →
      adjustIndex c i = i ∧ adjustSnapPoints c sp = sp) ∧
    unadjustIndex c (adjustIndex c i) = i ∧
    (adjustSnapPoints c sp).length =
      sp.length + (if c.dismissOnPanDown then 1 else 0) := by
  cases hd : c.dismissOnPanDown <;>
    simp [adjustIndex, unadjustIndex, adjustSnapPoints, hd]

/-- Witness for C5 at `i = 1`, `sp = [300, 500]`, `cfgPan`. -/
theorem adjust_roundtrip_and_length_witness :
    (0 : Int) ≤ 1 ∧
      (unadjustIndex cfgPan (adjustIndex cfgPan 1) = 1 ∧
        (adjustSnapPoints cfgPan [300, 500]).length =
          [300, 500].length + (if cfgPan.dismissOnPanDown then 1 else 0)) :=
  ⟨by decide,
   ⟨(adjust_roundtrip_and_length cfgPan 1 [300, 500] (by decide)).2.2.1,
    (adjust_roundtrip_and_length cfgPan 1 [300, 500] (by decide)).2.2.2⟩⟩

/-- Claim C8: while `isMinimized`, each of `close`, `collapse`, `expand`
and `snapTo i` leaves the state unchanged and emits no event at all (in
particular no engine command); each handler is a total function, so no
exception reaches the caller. -/
theorem visual_commands_minimized_noop (c : Config) (s : ModalState) (i : Int)
    (h : s.isMinimized = true) :
    handleClose s = (s, []) ∧
    handleCollapse c s = (s, []) ∧
    handleExpand c s = (s, []) ∧
    handleSnapTo c s i = (s, []) := by
  simp [handleClose, handleCollapse, handleExpand, handleSnapTo, h]

/-- Witness for C8 at the concrete minimized state. -/
theorem visual_commands_minimized_noop_witness :
    minimizedState.isMinimized = true ∧
      handleClose minimizedState = (minimizedState, []) :=
  ⟨rfl, (visual_commands_minimized_noop cfgPan minimizedState 0 rfl).1⟩

/-- Claim C9: after an engine change report that passes the minimized
guard, `currentIndex = nextIndex`; in the non-teardown branch both hold
the raw reported index. -/
theorem handleOnChange_syncs_indices (c : Config) (s : ModalState) (i : Int)
    (hg : (s.isMinimized && !s.isForcedDismissed) = false) :
    (handleOnChange c s i).1.currentIndex =
      (handleOnChange c s i).1.nextIndex ∧
    (0 ≤ unadjustIndex c i →
      (handleOnChange c s i).1.currentIndex = i) := by
  simp only [handleOnChange, hg, Bool.false_eq_true, if_false]
  by_cases h : unadjustIndex c i ≥ 0
  · simp [h]
  · simp [h, doDismiss]

/-- Witness for C9 at the presented state, raw index 2. -/
theorem handleOnChange_syncs_indices_witness :
    ((presentedState.isMinimized && !presentedState.isForcedDismissed)
        = false) ∧
      (handleOnChange cfgPan presentedState 2).1.currentIndex =
        (handleOnChange cfgPan presentedState 2).1.nextIndex :=
  ⟨rfl, (handleOnChange_syncs_indices cfgPan presentedState 2 rfl).1⟩

/-- Claim C10: `snapTo` performs no range validation: for every integer
`i`, when not minimized (and the engine is attached) it sets `nextIndex`
to `i + (1 if dismissOnPanDown else 0)` and forwards exactly that value
to the engine; in particular `snapTo (-1)` with `dismissOnPanDown`
issues engine `snapTo 0`, the synthetic dismiss snap point. -/
theorem handleSnapTo_no_range_validation (c : Config) (s : ModalState)
    (i : Int) (hmin : s.isMinimized = false) (hm : s.mount = true) :
    handleSnapTo c s i =
      ({ s with nextIndex := i + (if c.dismissOnPanDown then 1 else 0) },
       [Event.engineSnapTo (i + (if c.dismissOnPanDown then 1 else 0)) none]) ∧
    (c.dismissOnPanDown = true →
      handleSnapTo c s (-1) =
        ({ s with nextIndex := 0 }, [Event.engineSnapTo 0 none])) := by
  constructor
  · simp [handleSnapTo, hmin, hm]
  · intro hd
    simp [handleSnapTo, hmin, hm, hd]

/-- Witness for C10 at the presented state with `i = -1`. -/
theorem handleSnapTo_no_range_validation_witness :
    presentedState.isMinimized = false ∧ presentedState.mount = true ∧
      handleSnapTo cfgPan presentedState (-1) =
        ({ presentedState with nextIndex := 0 },
         [Event.engineSnapTo 0 none]) :=
  ⟨rfl, rfl,
   (handleSnapTo_no_range_validation cfgPan presentedState (-1) rfl rfl).2 rfl⟩

/-- Claim C2: the four-row `dismiss(force)` state machine. With the
engine attached (`mount = true`): forced while minimized tears down
immediately (flags and indices reset, `unmountSheet`/`unmountPortal`,
`onDismiss`) with no engine close; forced while not minimized sets
`isForcedDismissed`, clears `isMinimized`, resets `nextIndex` to `-1`
and issues engine close; unforced (any state) notifies
`willUnmountSheet`, resets `nextIndex` to `-1` and issues engine
close. -/
theorem handleDismiss_state_machine (s : ModalState) (hm : s.mount = true) :
    (s.isMinimized = true →
      handleDismiss s true =
        ({ s with isMinimized := false, isForcedDismissed := false,
                  currentIndex := -1, nextIndex := -1, mount := false },
         [Event.unmountSheet, Event.unmountPortal, Event.onDismiss])) ∧
    (s.isMinimized = false →
      handleDismiss s true =
        ({ s with isMinimized := false, isForcedDismissed := true,
                  nextIndex := -1 },
         [Event.engineClose])) ∧
    handleDismiss s false =
      ({ s with nextIndex := -1 },
       [Event.willUnmountSheet, Event.engineClose]) := by
  refine ⟨fun h1 => ?_, fun h2 => ?_, ?_⟩
  · simp [handleDismiss, doDismiss, h1]
  · simp [handleDismiss, h2, hm]
  · simp [handleDismiss, hm]

/-- Witness for C2: forced dismissal of the presented (non-minimized)
state. -/
theorem handleDismiss_state_machine_witness :
    presentedState.mount = true ∧
      handleDismiss presentedState true =
        ({ presentedState with isMinimized := false
                             , isForcedDismissed := true
                             , nextIndex := -1 },
         [Event.engineClose]) :=
  ⟨rfl, (handleDismiss_state_machine presentedState rfl).2.1 rfl⟩

/-- Claim C6: when not minimized (engine attached): `close` sets
`nextIndex := -1` and issues engine close; `collapse` sets `nextIndex`
to 1 if `dismissOnPanDown` else 0 and issues engine `snapTo` with that
value; `expand` sets `nextIndex` to the last index of the adjusted
snap-point sequence and issues engine expand; `snapTo i` sets
`nextIndex` to the adjusted index and issues engine `snapTo` with it. -/
theorem visual_commands_not_minimized (c : Config) (s : ModalState) (i : Int)
    (hmin : s.isMinimized = false) (hm : s.mount = true) :
    handleClose s = ({ s with nextIndex := -1 }, [Event.engineClose]) ∧
    handleCollapse c s =
      ({ s with nextIndex := if c.dismissOnPanDown then 1 else 0 },
       [Event.engineSnapTo (if c.dismissOnPanDown then 1 else 0) none]) ∧
    handleExpand c s =
      ({ s with nextIndex := ((snapPoints c).length : Int) - 1 },
       [Event.engineExpand]) ∧
    handleSnapTo c s i =
      ({ s with nextIndex := adjustIndex c i },
       [Event.engineSnapTo (adjustIndex c i) none]) := by
  cases hd : c.dismissOnPanDown <;>
    simp [handleClose, handleCollapse, handleExpand, handleSnapTo,
      adjustIndex, hmin, hm, hd]

/-- Witness for C6: `collapse` on the presented state with
`dismissOnPanDown` targets adjusted index 1. -/
theorem visual_commands_not_minimized_witness :
    presentedState.isMinimized = false ∧ presentedState.mount = true ∧
      handleCollapse cfgPan presentedState =
        ({ presentedState with nextIndex := 1 },
         [Event.engineSnapTo 1 none]) :=
  ⟨rfl, rfl,
   (visual_commands_not_minimized cfgPan presentedState 0 rfl rfl).2.1⟩

/-- Claim C7 (engine attached): `minimize` when not minimized only sets
`isMinimized := true` (leaving `currentIndex`, `nextIndex` and
`isForcedDismissed` untouched) and issues engine close; `restore` after
it returns the state exactly to the original and issues engine
`snapTo (nextIndex, animated := true)` at the preserved `nextIndex`,
with no `onDismiss` in the combined event trace; `minimize` while
minimized and `restore` while not minimized are no-ops. -/
theorem minimize_restore_roundtrip (s : ModalState) (hm : s.mount = true) :
    (s.isMinimized = false →
      handleMinimize s =
        ({ s with isMinimized := true }, [Event.engineClose]) ∧
      handleRestore (handleMinimize s).1 =
        (s, [Event.engineSnapTo s.nextIndex (some true)]) ∧
      Event.onDismiss ∉
        (handleMinimize s).2 ++ (handleRestore (handleMinimize s).1).2) ∧
    (s.isMinimized = true → handleMinimize s = (s, [])) ∧
    (s.isMinimized = false → handleRestore s = (s, [])) := by
  obtain ⟨m, mi, fd, ci, ni, pp⟩ := s
  refine ⟨fun h1 => ?_, fun h2 => ?_, fun h3 => ?_⟩
  · simp at h1 hm
    subst h1 hm
    simp [handleMinimize, handleRestore]
  · simp at h2
    subst h2
    simp [handleMinimize]
  · simp at h3
    subst h3
    simp [handleRestore]

/-- Witness for C7: minimize then restore on the presented state. -/
theorem minimize_restore_roundtrip_witness :
    presentedState.mount = true ∧ presentedState.isMinimized = false ∧
      handleRestore (handleMinimize presentedState).1 =
        (presentedState, [Event.engineSnapTo 1 (some true)]) :=
  ⟨rfl, rfl,
   ((minimize_restore_roundtrip presentedState rfl).1 rfl).2.1⟩

/-- Claim C3: any sequence of engine change reports delivered while
`isMinimized = true` and `isForcedDismissed = false` is ignored
entirely: the state is unchanged and no event at all is emitted — in
particular no `onChange` and no `onDismiss` reach the caller. -/
theorem minimized_reports_ignored (c : Config) (s : ModalState)
    (l : List Int) (h1 : s.isMinimized = true)
    (h2 : s.isForcedDismissed = false) :
    run c s (l.map Action.engineChange) = (s, []) := by
  induction l with
  | nil => rfl
  | cons i rest ih =>
      simp [run, step, handleOnChange, h1, h2, ih]

/-- Witness for C3: three reports against the minimized state. -/
theorem minimized_reports_ignored_witness :
    minimizedState.isMinimized = true ∧
      minimizedState.isForcedDismissed = false ∧
      run cfgPan minimizedState
          ([0, 1, 2].map Action.engineChange) = (minimizedState, []) :=
  ⟨rfl, rfl, minimized_reports_ignored cfgPan minimizedState [0, 1, 2] rfl rfl⟩

/-- Claim C4: an engine change report that passes the minimized guard
either tears down exactly once — when the unadjusted index is negative
the state is fully reset (`isMinimized = false`,
`isForcedDismissed = false`, `currentIndex = -1`, `nextIndex = -1`,
`mount = false`) and the event trace is exactly
`unmountSheet, unmountPortal, onDismiss` (one `onDismiss`) — or, when
the unadjusted index is `≥ 0`, emits exactly `onChange` of the
unadjusted index with no teardown. -/
theorem report_teardown_or_change (c : Config) (s : ModalState) (i : Int)
    (hg : (s.isMinimized && !s.isForcedDismissed) = false) :
    (unadjustIndex c i < 0 →
      handleOnChange c s i =
        ({ s with isMinimized := false, isForcedDismissed := false,
                  currentIndex := -1, nextIndex := -1, mount := false },
         [Event.unmountSheet, Event.unmountPortal, Event.onDismiss])) ∧
    (0 ≤ unadjustIndex c i →
      handleOnChange c s i =
        ({ s with currentIndex := i, nextIndex := i },
         [Event.onChange (unadjustIndex c i)])) := by
  constructor
  · intro hneg
    simp [handleOnChange, hg, doDismiss, show ¬ unadjustIndex c i ≥ 0 by omega]
  · intro hpos
    simp [handleOnChange, hg, hpos]

/-- Witness for C4: raw index 0 with `dismissOnPanDown` unadjusts to
`-1` and tears down, firing `onDismiss` once without any `dismiss()`
call. -/
theorem report_teardown_or_change_witness :
    ((presentedState.isMinimized && !presentedState.isForcedDismissed)
        = false) ∧
      unadjustIndex cfgPan 0 < 0 ∧
      handleOnChange cfgPan presentedState 0 =
        ({ presentedState with isMinimized := false
                             , isForcedDismissed := false
                             , currentIndex := -1
                             , nextIndex := -1
                             , mount := false },
         [Event.unmountSheet, Event.unmountPortal, Event.onDismiss]) :=
  ⟨rfl, by decide,
   (report_teardown_or_change cfgPan presentedState 0 rfl).1 (by decide)⟩

/-- Claim C1 counterexample: starting never-presented, the trace
`present(); dismiss(); <deferred present frame runs>` does NOT yield
exactly one `onDismiss` with a final state equal to the never-presented
state — concretely no `onDismiss` fires at all and the final state is
not the initial one (the sheet ends up mounted). -/
theorem present_then_dismiss_claim_false :
    ¬(((run cfgPan initialModalState
          [Action.present, Action.dismiss false, Action.runFrame]).2.count
            Event.onDismiss = 1) ∧
      (run cfgPan initialModalState
          [Action.present, Action.dismiss false, Action.runFrame]).1 =
        initialModalState) := by
  decide

/-- Claim C1 amended: `present()` followed immediately by `dismiss()`
(while the present-scheduled mutation is still pending) produces zero
`onDismiss` invocations, and the deferred present mutation DOES undo
the dismissal: the dismissal's engine close is skipped (the engine ref
is still null), and the final state is mounted with `nextIndex` equal
to the adjusted initial index, `currentIndex = -1` and both flags
clear; the only effects are the `willUnmountSheet` notification and the
sheet mount. -/
theorem present_then_dismiss_pending (c : Config) :
    run c initialModalState
        [Action.present, Action.dismiss false, Action.runFrame] =
      ({ initialModalState with mount := true, nextIndex := index c },
       [Event.willUnmountSheet, Event.mountSheet]) := by
  simp [run, step, handleDismiss, presentFrame, initialModalState]

end BottomSheetModal
